import Mathlib

/-!
Verification of the PulseWatch health-check subsystem.

Shallow embedding of `src/core/health/checks.py`, `src/core/health/views.py`,
`src/core/middleware/logging.py` and `src/core/middleware/metrics.py`.

Conventions of the embedding:
* machine time is modelled by the elapsed duration (in milliseconds, a
  rational number) that `time.time()` differences produce on the path taken;
* the behaviour of the external database / cache clients is an explicit
  environment value (`DbOutcome`, `CacheOutcome`): either the client call
  succeeds, or it raises an exception carrying the string `str(e)`;
* Python's `round(x, 2)` is `round2`;
* emissions to the Prometheus metrics sink are collected in an explicit
  trace (`MetricEvent` list) returned alongside each probe's result.
-/

/-- One entry of a health-check response: the dict
`{'status': ..., 'latency_ms': ..., 'message': ...}` built by the probe
functions in `checks.py`. -/
structure ProbeResult where
  status : String
  latency_ms : ℚ
  message : String
deriving DecidableEq, Repr

/-- An emission to the Prometheus metrics sink: either
`health_check_duration.labels(check_name=n).observe(s)` or
`health_check_status.labels(check_name=n).set(v)` (`metrics.py`). -/
inductive MetricEvent where
  | observeDuration (check_name : String) (seconds : ℚ)
  | setStatus (check_name : String) (value : ℕ)
deriving DecidableEq, Repr

/-- Python `round(x, 2)`: round to two decimal places. (Python uses
round-half-to-even; the claims under study only need sign preservation and
are insensitive to the tie-breaking rule, so `round` is used.) -/
def round2 (q : ℚ) : ℚ := ((round (q * 100) : ℤ) : ℚ) / 100

/-- Behaviour of the database client during `cursor.execute("SELECT 1")` /
`cursor.fetchone()`: either the round trip succeeds or some exception `e`
is raised (with `str(e)` recorded). -/
inductive DbOutcome where
  | ok
  | raises (e : String)
deriving DecidableEq, Repr

/-- Behaviour of the cache client during `cache.set(...)` then
`cache.get(...)`: the set may raise, the get may raise, or the get returns
a value (`none` models Python `None` for a missing key). -/
inductive CacheOutcome where
  | setRaises (e : String)
  | getRaises (e : String)
  | getReturns (v : Option String)
deriving DecidableEq, Repr

/-- `database_health_check` (checks.py lines 19-68): runs `SELECT 1`,
emits one latency observation and one status-gauge set labelled
`database`, and returns the status dict. `elapsedMs` is the elapsed wall
time in milliseconds measured on the path taken. -/
def database_health_check (db : DbOutcome) (elapsedMs : ℚ) :
    ProbeResult × List MetricEvent :=
  match db with
  | .ok =>
      (⟨"healthy", round2 elapsedMs, "MySQL connection successful"⟩,
       [.observeDuration "database" (elapsedMs / 1000),
        .setStatus "database" 1])
  | .raises e =>
      (⟨"unhealthy", round2 elapsedMs,
        "Database connection failed: " ++ e⟩,
       [.observeDuration "database" (elapsedMs / 1000),
        .setStatus "database" 0])

/-- `redis_health_check` (checks.py lines 71-122): writes the probe key,
reads it back, raises `Exception("Redis value mismatch")` on a read-back
mismatch; any exception from the `try` block is caught and converted to an
unhealthy result. Emits one latency observation and one status-gauge set
labelled `redis` on every path. -/
def redis_health_check (c : CacheOutcome) (elapsedMs : ℚ) :
    ProbeResult × List MetricEvent :=
  let fail (e : String) : ProbeResult × List MetricEvent :=
    (⟨"unhealthy", round2 elapsedMs, "Redis connection failed: " ++ e⟩,
     [.observeDuration "redis" (elapsedMs / 1000),
      .setStatus "redis" 0])
  match c with
  | .setRaises e => fail e
  | .getRaises e => fail e
  | .getReturns v =>
      if v = some "ping" then
        (⟨"healthy", round2 elapsedMs, "Redis connection successful"⟩,
         [.observeDuration "redis" (elapsedMs / 1000),
          .setStatus "redis" 1])
      else
        fail "Redis value mismatch"

/-- The environment of one readiness evaluation: the behaviour of each
dependency client and the elapsed time each probe measures. -/
structure ProbeEnv where
  db : DbOutcome
  dbElapsedMs : ℚ
  cache : CacheOutcome
  cacheElapsedMs : ℚ
deriving DecidableEq, Repr

/-- The JSON body and HTTP status built by `ready_view` (views.py lines
49-106); `checks` is an association list in the insertion order of the
Python dict. The `timestamp` and `version` fields are request-independent
strings supplied by the environment and irrelevant to the claims, so they
are parameters of the views below rather than fields here. -/
structure ReadyResponse where
  status : String
  http_status : ℕ
  checks : List (String × ProbeResult)
deriving DecidableEq, Repr

/-- Lines 84-90 of views.py: from the collected `checks` dict, compute
`all_healthy = all(check['status'] == 'healthy' for check in
checks.values())`, then `overall_status` and `http_status`. -/
def aggregate (checks : List (String × ProbeResult)) : String × ℕ :=
  let all_healthy := checks.all (fun c => c.2.status == "healthy")
  (if all_healthy then "ready" else "not_ready",
   if all_healthy then 200 else 503)

/-- `ready_view` (views.py lines 49-106): run both health checks, collect
them into the `checks` dict keyed `database` then `redis`, aggregate, and
return the response. The metric events emitted by the probes are
concatenated in invocation order. -/
def ready_view (env : ProbeEnv) : ReadyResponse × List MetricEvent :=
  let db := database_health_check env.db env.dbElapsedMs
  let rd := redis_health_check env.cache env.cacheElapsedMs
  let checks := [("database", db.1), ("redis", rd.1)]
  let agg := aggregate checks
  (⟨agg.1, agg.2, checks⟩, db.2 ++ rd.2)

/-- The body and HTTP status built by `healthz_view` (views.py lines
22-46). -/
structure LivenessResponse where
  status : String
  http_status : ℕ
deriving DecidableEq, Repr

/-- `healthz_view` (views.py lines 22-46): returns the constant liveness
body with HTTP 200. The handler's source never references the dependency
clients; the embedding still receives the dependency environment so that
independence from it is a statable fact, and returns the (empty) trace of
metric events emitted. -/
def healthz_view (_env : ProbeEnv) : LivenessResponse × List MetricEvent :=
  (⟨"healthy", 200⟩, [])

/-- A Django `HttpRequest` as far as the middleware reads it: method,
path, and the `META` mapping (an association list). -/
structure HttpRequest where
  method : String
  path : String
  meta : List (String × String)
deriving DecidableEq, Repr

/-- A Django `HttpResponse` as far as the middleware touches it: status
code and headers. -/
structure HttpResponse where
  status_code : ℕ
  headers : List (String × String)
deriving DecidableEq, Repr

/-- `response[key] = value` on a Django response: sets the header,
overwriting any existing value for the key. -/
def setHeader (r : HttpResponse) (k v : String) : HttpResponse :=
  ⟨r.status_code, (k, v) :: r.headers.filter (fun p => !(p.1 == k))⟩

/-- Header lookup on a response. -/
def getHeader (r : HttpResponse) (k : String) : Option String :=
  r.headers.lookup k

/-- An operation on the ambient structlog context:
`structlog.contextvars.clear_contextvars()` or
`structlog.contextvars.bind_contextvars(request_id=..., method=...,
path=..., ip_address=...)`. -/
inductive LogCtxOp where
  | clear
  | bind (request_id method path ip_address : String)
deriving DecidableEq, Repr

/-- `StructuredLoggingMiddleware._get_client_ip` (logging.py lines
71-88): first comma-separated entry of `HTTP_X_FORWARDED_FOR`, stripped,
if that header is present and non-empty (Python truthiness), else
`REMOTE_ADDR` (empty string if absent). -/
def get_client_ip (request : HttpRequest) : String :=
  match request.meta.lookup "HTTP_X_FORWARDED_FOR" with
  | some xff =>
      if xff = "" then
        (request.meta.lookup "REMOTE_ADDR").getD ""
      else
        ((xff.splitOn ",").headD "").trim
  | none => (request.meta.lookup "REMOTE_ADDR").getD ""

/-- `StructuredLoggingMiddleware.__call__` (logging.py lines 28-69):
given the inbound request, the freshly generated `str(uuid.uuid4())`
value and the downstream `get_response`, clear then bind the logging
context, run the downstream handler, and set the `X-Request-ID` response
header. Returns the response together with the trace of context
operations in execution order. -/
def structuredLoggingCall (request : HttpRequest) (request_id : String)
    (get_response : HttpRequest → HttpResponse) :
    HttpResponse × List LogCtxOp :=
  let ops := [LogCtxOp.clear,
              LogCtxOp.bind request_id request.method request.path
                (get_client_ip request)]
  let response := get_response request
  (setHeader response "X-Request-ID" request_id, ops)

/-- Events of one pass through `MetricsMiddleware.__call__` (metrics.py
lines 66-84) that touch the `active_requests` gauge or run the handler. -/
inductive ReqEvent where
  | incActive
  | runHandler
  | decActive
deriving DecidableEq, Repr

/-- Contribution of one event to the `active_requests` gauge. -/
def gaugeDelta : ReqEvent → ℤ
  | .incActive => 1
  | .runHandler => 0
  | .decActive => -1

/-- `MetricsMiddleware.__call__` (metrics.py lines 66-84): increment
`active_requests`, run the downstream handler inside `try`, and decrement
in `finally` — so the decrement happens whether the handler returns
(`Except.ok`) or raises (`Except.error`), and the handler's outcome
(response or exception) is then propagated unchanged. -/
def metricsMiddlewareCall (handler : Unit → Except String HttpResponse) :
    Except String HttpResponse × List ReqEvent :=
  let pre := [ReqEvent.incActive]
  match handler () with
  | .ok response => (.ok response, pre ++ [.runHandler, .decActive])
  | .error e => (.error e, pre ++ [.runHandler, .decActive])

/-- Number of latency observations labelled `n` in a metric trace. -/
def countObserve (n : String) : List MetricEvent → ℕ
  | [] => 0
  | .observeDuration m _ :: tr => (if m == n then 1 else 0) + countObserve n tr
  | .setStatus _ _ :: tr => countObserve n tr

/-- Number of status-gauge sets labelled `n` in a metric trace. -/
def countSet (n : String) : List MetricEvent → ℕ
  | [] => 0
  | .setStatus m _ :: tr => (if m == n then 1 else 0) + countSet n tr
  | .observeDuration _ _ :: tr => countSet n tr

/-- A rational rounded to two decimals is still nonnegative when the
input is. -/
theorem round2_nonneg {q : ℚ} (h : 0 ≤ q) : 0 ≤ round2 q := by
  have h1 : (0 : ℤ) ≤ round (q * 100) := by
    rw [round_eq, Int.floor_nonneg]
    linarith
  have h2 : (0 : ℚ) ≤ ((round (q * 100) : ℤ) : ℚ) := by exact_mod_cast h1
  unfold round2
  exact div_nonneg h2 (by norm_num)

/-- Appending to a non-empty string yields a non-empty string. -/
theorem append_ne_empty (a b : String) (ha : a ≠ "") : a ++ b ≠ "" := by
  cases a with | mk d =>
  cases b with | mk e =>
  intro hcontra
  cases d with
  | nil => exact ha rfl
  | cons c cs =>
    have hd : ((String.mk (c :: cs)) ++ (String.mk e)).data = ("" : String).data :=
      congrArg String.data hcontra
    simp [String.append] at hd

/-- Setting a header makes it readable back with exactly that value. -/
theorem getHeader_setHeader_same (r : HttpResponse) (k v : String) :
    getHeader (setHeader r k v) k = some v := by
  simp [getHeader, setHeader, List.lookup]


/-- C1: for every readiness evaluation, `GET /ready` returns HTTP 200 with
top-level status `ready` iff every entry of the `checks` map has status
exactly `healthy`; otherwise it returns HTTP 503 with top-level status
`not_ready`. -/
theorem ready_view_status_iff_all_healthy (env : ProbeEnv) :
    (((ready_view env).1.http_status = 200 ∧ (ready_view env).1.status = "ready") ↔
      ((ready_view env).1.checks.all (fun c => c.2.status == "healthy")) = true) ∧
    (((ready_view env).1.http_status = 503 ∧ (ready_view env).1.status = "not_ready") ↔
      ¬ (((ready_view env).1.checks.all (fun c => c.2.status == "healthy")) = true)) := by
  obtain ⟨db, t1, c, t2⟩ := env
  cases db <;> cases c <;>
    simp [ready_view, aggregate, database_health_check, redis_health_check]

/-- C2: whenever some collected probe result has status `degraded`, the
aggregation rule of `ready_view` (views.py lines 84-90) yields
`not_ready` with HTTP 503 — only exact equality with `healthy` counts
toward readiness. -/
theorem aggregate_degraded_not_ready (checks : List (String × ProbeResult))
    (h : ∃ c ∈ checks, c.2.status = "degraded") :
    aggregate checks = ("not_ready", 503) := by
  obtain ⟨c, hc, hst⟩ := h
  have hall : checks.all (fun c => c.2.status == "healthy") = false := by
    rw [List.all_eq_false]
    exact ⟨c, hc, by simp [hst]⟩
  simp [aggregate, hall]

/-- Witness for C2 at a concrete checks map containing a degraded
entry. -/
theorem aggregate_degraded_not_ready_witness :
    aggregate [("database", ⟨"degraded", 1, "m"⟩)] = ("not_ready", 503) :=
  aggregate_degraded_not_ready [("database", ⟨"degraded", 1, "m"⟩)]
    ⟨("database", ⟨"degraded", 1, "m"⟩), List.mem_singleton.mpr rfl, rfl⟩

/-- C3: the probe functions never propagate a failure of the underlying
client: on every failure behaviour (database exception, cache set/get
exception, or cache read-back mismatch) they return an `unhealthy`
result whose message embeds the stringified cause. -/
theorem probes_never_raise :
    (∀ e t, (database_health_check (.raises e) t).1.status = "unhealthy" ∧
      (database_health_check (.raises e) t).1.message =
        "Database connection failed: " ++ e) ∧
    (∀ e t, (redis_health_check (.setRaises e) t).1.status = "unhealthy" ∧
      (redis_health_check (.setRaises e) t).1.message =
        "Redis connection failed: " ++ e) ∧
    (∀ e t, (redis_health_check (.getRaises e) t).1.status = "unhealthy" ∧
      (redis_health_check (.getRaises e) t).1.message =
        "Redis connection failed: " ++ e) ∧
    (∀ v t, v ≠ some "ping" →
      (redis_health_check (.getReturns v) t).1.status = "unhealthy" ∧
      (redis_health_check (.getReturns v) t).1.message =
        "Redis connection failed: " ++ "Redis value mismatch") := by
  refine ⟨fun e t => ⟨rfl, rfl⟩, fun e t => ⟨rfl, rfl⟩, fun e t => ⟨rfl, rfl⟩,
    fun v t hv => ?_⟩
  simp [redis_health_check, hv]

/-- Witness for C3 at a concrete mismatching read-back value. -/
theorem probes_never_raise_witness :
    (redis_health_check (.getReturns none) 3).1.status = "unhealthy" :=
  (probes_never_raise.2.2.2 none 3 (by decide)).1

/-- C4: on every probe outcome — success or exception path — the returned
result has `latency_ms ≥ 0` (given nonnegative elapsed time) and a
non-empty `message`. -/
theorem probe_latency_nonneg_message_nonempty (db : DbOutcome)
    (c : CacheOutcome) (t u : ℚ) (ht : 0 ≤ t) (hu : 0 ≤ u) :
    0 ≤ (database_health_check db t).1.latency_ms ∧
    (database_health_check db t).1.message ≠ "" ∧
    0 ≤ (redis_health_check c u).1.latency_ms ∧
    (redis_health_check c u).1.message ≠ "" := by
  refine ⟨?_, ?_, ?_, ?_⟩
  · cases db <;> exact round2_nonneg ht
  · cases db with
    | ok => simp [database_health_check]
    | raises e =>
        exact append_ne_empty "Database connection failed: " e (by decide)
  · cases c with
    | setRaises e => exact round2_nonneg hu
    | getRaises e => exact round2_nonneg hu
    | getReturns v =>
        by_cases hv : v = some "ping" <;>
          simp [redis_health_check, hv] <;> exact round2_nonneg hu
  · cases c with
    | setRaises e =>
        exact append_ne_empty "Redis connection failed: " e (by decide)
    | getRaises e =>
        exact append_ne_empty "Redis connection failed: " e (by decide)
    | getReturns v =>
        by_cases hv : v = some "ping" <;> simp [redis_health_check, hv]

/-- Witness for C4 at concrete elapsed times and behaviours. -/
theorem probe_latency_nonneg_message_nonempty_witness :
    (0 : ℚ) ≤ 5 ∧ (0 : ℚ) ≤ 7 ∧
    0 ≤ (database_health_check (.raises "down") 5).1.latency_ms ∧
    (redis_health_check (.getReturns none) 7).1.message ≠ "" :=
  ⟨by norm_num, by norm_num,
   (probe_latency_nonneg_message_nonempty (.raises "down") (.getReturns none)
      5 7 (by norm_num) (by norm_num)).1,
   (probe_latency_nonneg_message_nonempty (.raises "down") (.getReturns none)
      5 7 (by norm_num) (by norm_num)).2.2.2⟩

/-- C5: every probe invocation, on the success and on the failure path,
emits exactly one latency observation and exactly one status-gauge set
(value 1 on healthy, 0 on unhealthy) labelled with the probe's name, and
nothing else; the emissions are never skipped. -/
theorem probe_metric_emissions (db : DbOutcome) (c : CacheOutcome) (t u : ℚ) :
    countObserve "database" (database_health_check db t).2 = 1 ∧
    countSet "database" (database_health_check db t).2 = 1 ∧
    (database_health_check db t).2 =
      [.observeDuration "database" (t / 1000),
       .setStatus "database"
         (if (database_health_check db t).1.status == "healthy" then 1 else 0)] ∧
    countObserve "redis" (redis_health_check c u).2 = 1 ∧
    countSet "redis" (redis_health_check c u).2 = 1 ∧
    (redis_health_check c u).2 =
      [.observeDuration "redis" (u / 1000),
       .setStatus "redis"
         (if (redis_health_check c u).1.status == "healthy" then 1 else 0)] := by
  cases db <;> cases c <;>
    simp [database_health_check, redis_health_check, countObserve, countSet] <;>
    split_ifs <;> simp_all [countObserve, countSet]

/-- C6: `GET /healthz` returns HTTP 200 with body status `healthy` for
every state of the dependencies, its response does not depend on that
state, and it emits no probe metric event (it invokes no dependency probe
and not the readiness aggregation). -/
theorem healthz_view_constant_healthy (env env2 : ProbeEnv) :
    healthz_view env = (⟨"healthy", 200⟩, []) ∧
    healthz_view env = healthz_view env2 :=
  ⟨rfl, rfl⟩

/-- C7: every readiness report collects the full registered probe set:
its `checks` map has exactly the keys `database` then `redis` (in
registration order), each bound to the complete result of the
corresponding probe, for every outcome — a partial report is never
emitted. -/
theorem ready_view_checks_complete (env : ProbeEnv) :
    ((ready_view env).1.checks.map Prod.fst = ["database", "redis"]) ∧
    (ready_view env).1.checks =
      [("database", (database_health_check env.db env.dbElapsedMs).1),
       ("redis", (redis_health_check env.cache env.cacheElapsedMs).1)] :=
  ⟨rfl, rfl⟩

/-- C8: the logging middleware exposes the generated correlation
identifier as the `X-Request-ID` response header for every request and
every downstream handler; two sequential requests whose generated
identifiers differ carry distinct header values; and the ambient logging
context is cleared before the request's context is bound. -/
theorem logging_middleware_correlation :
    (∀ request id h,
      getHeader (structuredLoggingCall request id h).1 "X-Request-ID" = some id) ∧
    (∀ r1 r2 id1 id2 h1 h2, id1 ≠ id2 →
      getHeader (structuredLoggingCall r1 id1 h1).1 "X-Request-ID" ≠
        getHeader (structuredLoggingCall r2 id2 h2).1 "X-Request-ID") ∧
    (∀ request id h,
      (structuredLoggingCall request id h).2 =
        [.clear, .bind id request.method request.path (get_client_ip request)]) := by
  have hget : ∀ request id h,
      getHeader (structuredLoggingCall request id h).1 "X-Request-ID" = some id :=
    fun request id h => getHeader_setHeader_same (h request) "X-Request-ID" id
  refine ⟨hget, fun r1 r2 id1 id2 h1 h2 hne => ?_, fun request id h => rfl⟩
  rw [hget, hget]
  simp [hne]

/-- Witness for C8 at two concrete distinct identifiers. -/
theorem logging_middleware_correlation_witness :
    getHeader (structuredLoggingCall ⟨"GET", "/ready", []⟩ "id-a"
        (fun _ => ⟨200, []⟩)).1 "X-Request-ID" ≠
      getHeader (structuredLoggingCall ⟨"GET", "/ready", []⟩ "id-b"
        (fun _ => ⟨200, []⟩)).1 "X-Request-ID" :=
  logging_middleware_correlation.2.1 ⟨"GET", "/ready", []⟩ ⟨"GET", "/ready", []⟩
    "id-a" "id-b" (fun _ => ⟨200, []⟩) (fun _ => ⟨200, []⟩) (by decide)

/-- C9 (implicit): for every behaviour of the underlying clients, the
status produced by each probe is exactly `healthy` or `unhealthy`; the
`degraded` status admitted by the response schema is never produced, so
no reachable readiness report contains a degraded entry. -/
theorem probe_status_never_degraded (db : DbOutcome) (c : CacheOutcome)
    (t u : ℚ) (env : ProbeEnv) :
    ((database_health_check db t).1.status = "healthy" ∨
      (database_health_check db t).1.status = "unhealthy") ∧
    ((redis_health_check c u).1.status = "healthy" ∨
      (redis_health_check c u).1.status = "unhealthy") ∧
    ((ready_view env).1.checks.all
      (fun ch => !(ch.2.status == "degraded"))) = true := by
  refine ⟨?_, ?_, ?_⟩
  · cases db <;> simp [database_health_check]
  · cases c with
    | setRaises e => simp [redis_health_check]
    | getRaises e => simp [redis_health_check]
    | getReturns v =>
        by_cases hv : v = some "ping" <;> simp [redis_health_check, hv]
  · obtain ⟨dbe, t1, ce, t2⟩ := env
    cases dbe <;> cases ce <;>
      simp [ready_view, database_health_check, redis_health_check] <;>
      split_ifs <;> simp_all

/-- C10 (implicit): the metrics middleware increments the
`active_requests` gauge before running the downstream handler and
decrements it afterwards even when the handler raises; the handler's
outcome is propagated unchanged and the gauge's net change over any
single request is zero. -/
theorem metrics_middleware_gauge_balanced
    (handler : Unit → Except String HttpResponse) :
    (metricsMiddlewareCall handler).1 = handler () ∧
    (metricsMiddlewareCall handler).2 =
      [.incActive, .runHandler, .decActive] ∧
    (((metricsMiddlewareCall handler).2.map gaugeDelta).sum = 0) := by
  cases hh : handler () <;>
    simp [metricsMiddlewareCall, hh, gaugeDelta]
